import Mathlib

/-!
Verification development for the ILP extractor server (`src/server.js`).

The file shallowly embeds the document-to-model-request pipeline: the
content classifier and part builder (`buildPartsFromUpload`), the temp-file
naming and lifecycle of its large-file branch, and the `POST /extract`
handler (`handleExtract`).  External collaborators (the UTF-8 decoder, the
DOCX text extractor `mammoth.extractRawText`, the remote Files API upload,
the model backend, the loaded schema and the multipart middleware outcome)
are modelled as an environment record supplied per request; the JS builtin
`JSON.parse` is modelled by an executable JSON parser `jsonParse` below.
Filesystem side effects of the builder are recorded as an explicit event
trace.
-/

namespace IlpExtractor

/-! ## Data model: uploaded files and content parts -/

/-- A multer in-memory upload: `file.mimetype`, `file.size`, `file.buffer`
(bytes), `file.originalname`.  `size` is optional to model the JS falsy
fallback `file.size || file.buffer?.length || 0`. -/
structure UploadFile where
  mimetype : String
  size : Option Nat
  buffer : List Nat
  originalname : Option String
deriving DecidableEq, Repr

/-- `const size = file.size || file.buffer?.length || 0` — a falsy (absent
or zero) `file.size` falls back to the buffer length. -/
def fileSize (f : UploadFile) : Nat :=
  match f.size with
  | some n => if n = 0 then f.buffer.length else n
  | none => f.buffer.length

/-- One unit of a model request payload: `{inlineData}`, the part built by
`createPartFromUri` (a remote file reference), or `{text}`. -/
inductive Part where
  | inlineData (mimeType : String) (data : String)
  | fileData (uri : String) (mimeType : String)
  | text (t : String)
deriving DecidableEq, Repr

/-- Result of `ai.files.upload`: `{uri, mimeType}`. -/
structure RemoteFile where
  uri : String
  mimeType : String
deriving DecidableEq, Repr

/-- A recorded filesystem side effect of the builder:
`fs.writeFile tmp` or `fs.unlink tmp`. -/
inductive FsEvent where
  | write (path : String)
  | unlink (path : String)
deriving DecidableEq, Repr

/-- Replay a trace over a set (list) of existing temp files. -/
def replayFs : List FsEvent → List String → List String
  | [], s => s
  | .write p :: rest, s => replayFs rest (s ++ [p])
  | .unlink p :: rest, s => replayFs rest (s.filter (fun q => !(q == p)))

/-- Temp files still existing after the trace, starting from none. -/
def remainingFiles (ev : List FsEvent) : List String := replayFs ev []

/-- Count of `write` events in a trace. -/
def writeCount (ev : List FsEvent) : Nat :=
  (ev.filter (fun e => match e with | .write _ => true | .unlink _ => false)).length

/-! ## MIME type sets (from `server.js`) -/

def IMAGE_MIMES : List String :=
  ["image/png", "image/jpeg", "image/webp", "image/heic", "image/heif"]

def TEXTY_MIMES : List String :=
  ["text/plain", "text/csv", "application/json"]

def DIRECT_DOC_MIMES : List String :=
  ["application/pdf"]

def docxMime : String :=
  "application/vnd.openxmlformats-officedocument.wordprocessingml.document"

/-! ## Error messages (from `server.js`)

The unsupported-type message in the source reads
`` `Unsupported file type: \${mt}. Supported: \${supported.join(", ")}. …` ``:
both template placeholders are escaped with a backslash, so the thrown
message is the literal text below — the `supported` array built just above
the `throw` is never interpolated. -/

def unsupportedMsg : String :=
  "Unsupported file type: $\x7bmt\x7d. Supported: $\x7bsupported.join(\", \")\x7d. Convert PPTX/others to PDF or TXT first."

def emptyDocxMsg : String := "DOCX parsed but produced empty text."

/-- Failures `buildPartsFromUpload` can raise (thrown `Error`s and a
rejected Files API upload). -/
inductive BuildError where
  | emptyDocx
  | unsupported (msg : String)
  | uploadFailed (e : String)
deriving DecidableEq, Repr

/-- `String(e)` as applied by the catch handler: thrown `Error`s stringify
as `Error: <message>`; an upload rejection is carried already stringified. -/
def buildErrorString : BuildError → String
  | .emptyDocx => "Error: " ++ emptyDocxMsg
  | .unsupported m => "Error: " ++ m
  | .uploadFailed s => s

/-! ## Base64 (model of `Buffer.prototype.toString("base64")`) -/

def b64Alphabet : List Char :=
  "ABCDEFGHIJKLMNOPQRSTUVWXYZabcdefghijklmnopqrstuvwxyz0123456789+/".data

def b64Char (n : Nat) : Char := b64Alphabet.getD n '?'

def base64Chunks : List Nat → List Char
  | [] => []
  | [b1] =>
      [b64Char (b1 / 4), b64Char (b1 % 4 * 16), '=', '=']
  | [b1, b2] =>
      [b64Char (b1 / 4), b64Char (b1 % 4 * 16 + b2 / 16), b64Char (b2 % 16 * 4), '=']
  | b1 :: b2 :: b3 :: rest =>
      b64Char (b1 / 4) :: b64Char (b1 % 4 * 16 + b2 / 16) ::
      b64Char (b2 % 16 * 4 + b3 / 64) :: b64Char (b3 % 64) :: base64Chunks rest

def base64Encode (bs : List Nat) : String := String.mk (base64Chunks bs)

/-! ## Decimal rendering of `Date.now()` and the temp-file name

A JS template literal renders an integer in decimal; `decRepr` is that
rendering, written with explicit fuel so it evaluates by kernel
reduction. -/

def digitChar (d : Nat) : Char := Char.ofNat (48 + d)

def decReprAux : Nat → Nat → List Char
  | 0, _ => []
  | fuel + 1, n => if n = 0 then [] else decReprAux fuel (n / 10) ++ [digitChar (n % 10)]

def decRepr (n : Nat) : String :=
  if n = 0 then "0" else String.mk (decReprAux (n + 1) n)

/-- JS `\s` (the whitespace class of the sanitizing regex). -/
def isJsWs (c : Char) : Bool :=
  c == ' ' || c == '\t' || c == '\n' || c == '\r' || c == '\x0b' || c == '\x0c'

/-- JS `String.prototype.trim`: drop leading and trailing whitespace. -/
def jsTrim (s : String) : String :=
  String.mk (((s.data.dropWhile isJsWs).reverse.dropWhile isJsWs).reverse)

/-- `.replace(/\s+/g, "_")`: each maximal whitespace run becomes one
underscore. -/
def sanitizeChars : List Char → List Char
  | [] => []
  | [c] => if isJsWs c then ['_'] else [c]
  | c1 :: c2 :: rest =>
      if isJsWs c1 && isJsWs c2 then sanitizeChars (c2 :: rest)
      else (if isJsWs c1 then '_' else c1) :: sanitizeChars (c2 :: rest)

def jsWsReplace (s : String) : String := String.mk (sanitizeChars s.data)

/-- `` `/tmp/${Date.now()}-${(file.originalname || dflt).replace(/\s+/g, "_")}` ``.
The PDF/image branch uses default name `upload`, the text branch
`upload.txt`. -/
def tmpPath (dflt : String) (now : Nat) (originalname : Option String) : String :=
  "/tmp/" ++ decRepr now ++ "-" ++ jsWsReplace (originalname.getD dflt)

/-! ## The builder environment and `buildPartsFromUpload` -/

/-- Per-request external collaborators of the builder: the millisecond
clock `Date.now()`, `Buffer.toString("utf-8")`, `mammoth.extractRawText`
(`null` modelled as the empty string), and `ai.files.upload` as a function
of the temp path and declared MIME type. -/
structure BuildEnv where
  now : Nat
  utf8Decode : List Nat → String
  mammothExtract : List Nat → String
  upload : String → String → Except String RemoteFile

/-- Server configuration: resolved `API_KEY` (empty-string treated as
absent, matching JS falsiness), `MAX_INLINE_BYTES`, `MODEL`. -/
structure ServerConfig where
  apiKey : Option String
  maxInlineBytes : Nat
  model : String

/-- The large-file branch: `fs.writeFile(tmp)`, then `ai.files.upload`
inside `try`, with `fs.unlink(tmp)` in `finally` (run on success and on
failure alike). -/
def bigFileFlow (env : BuildEnv) (mt : String) (tmp : String) :
    Except BuildError (List Part) × List FsEvent :=
  match env.upload tmp mt with
  | .ok up => (.ok [.fileData up.uri up.mimeType], [.write tmp, .unlink tmp])
  | .error e => (.error (.uploadFailed e), [.write tmp, .unlink tmp])

/-- `buildPartsFromUpload(file)` from `server.js`, with its filesystem
side effects made an explicit trace. -/
def buildPartsFromUpload (cfg : ServerConfig) (env : BuildEnv) (f : UploadFile) :
    Except BuildError (List Part) × List FsEvent :=
  if DIRECT_DOC_MIMES.contains f.mimetype || IMAGE_MIMES.contains f.mimetype then
    if fileSize f ≤ cfg.maxInlineBytes then
      (.ok [.inlineData f.mimetype (base64Encode f.buffer)], [])
    else
      bigFileFlow env f.mimetype (tmpPath "upload" env.now f.originalname)
  else if TEXTY_MIMES.contains f.mimetype then
    if fileSize f ≤ cfg.maxInlineBytes then
      (.ok [.text (env.utf8Decode f.buffer)], [])
    else
      bigFileFlow env f.mimetype (tmpPath "upload.txt" env.now f.originalname)
  else if f.mimetype == docxMime then
    if jsTrim (env.mammothExtract f.buffer) == "" then
      (.error .emptyDocx, [])
    else
      (.ok [.text (jsTrim (env.mammothExtract f.buffer))], [])
  else
    (.error (.unsupported unsupportedMsg), [])

/-! ## A JSON parser (model of the JS builtin `JSON.parse`)

An executable recursive-descent parser with explicit fuel.  It accepts
the JSON value grammar (whitespace, `null`, booleans, numbers kept as
their literal text, strings with simplified escapes, arrays, objects) and
rejects everything else — in particular `JSON.parse("")` throws, which is
modelled by `jsonParse "" = none`. -/

inductive Json where
  | null
  | bool (b : Bool)
  | num (lit : String)
  | str (s : String)
  | arr (elems : List Json)
  | obj (fields : List (String × Json))
deriving Repr

def skipWs : List Char → List Char
  | c :: cs => if c == ' ' || c == '\t' || c == '\n' || c == '\r' then skipWs cs else c :: cs
  | [] => []

/-- Simplified escape mapping inside JSON strings. -/
def escChar (c : Char) : Char :=
  if c == 'n' then '\n' else if c == 't' then '\t' else if c == 'r' then '\r' else c

/-- Scan a JSON string body after the opening quote. -/
def parseStrGo (acc : List Char) : List Char → Option (String × List Char)
  | '"' :: rest => some (String.mk acc.reverse, rest)
  | '\\' :: c :: rest => parseStrGo (escChar c :: acc) rest
  | c :: rest => parseStrGo (c :: acc) rest
  | [] => none

def numChar (c : Char) : Bool :=
  c.isDigit || c == '-' || c == '+' || c == '.' || c == 'e' || c == 'E'

def parseNum (cs : List Char) : Option (Json × List Char) :=
  let tk := cs.takeWhile numChar
  if tk.any Char.isDigit then some (.num (String.mk tk), cs.dropWhile numChar) else none

mutual

def parseVal : Nat → List Char → Option (Json × List Char)
  | 0, _ => none
  | fuel + 1, cs =>
    match skipWs cs with
    | 'n' :: 'u' :: 'l' :: 'l' :: rest => some (.null, rest)
    | 't' :: 'r' :: 'u' :: 'e' :: rest => some (.bool true, rest)
    | 'f' :: 'a' :: 'l' :: 's' :: 'e' :: rest => some (.bool false, rest)
    | '"' :: rest =>
        match parseStrGo [] rest with
        | some (s, r) => some (.str s, r)
        | none => none
    | '[' :: rest => parseArrItems fuel rest
    | '\x7b' :: rest => parseObjItems fuel rest
    | other => parseNum other

def parseArrItems : Nat → List Char → Option (Json × List Char)
  | 0, _ => none
  | fuel + 1, cs =>
    match skipWs cs with
    | ']' :: rest => some (.arr [], rest)
    | cs' =>
        match parseVal fuel cs' with
        | some (v, r) => parseArrRest fuel [v] r
        | none => none

def parseArrRest : Nat → List Json → List Char → Option (Json × List Char)
  | 0, _, _ => none
  | fuel + 1, acc, cs =>
    match skipWs cs with
    | ']' :: rest => some (.arr acc.reverse, rest)
    | ',' :: rest =>
        match parseVal fuel rest with
        | some (v, r) => parseArrRest fuel (v :: acc) r
        | none => none
    | _ => none

def parseMember : Nat → List Char → Option ((String × Json) × List Char)
  | 0, _ => none
  | fuel + 1, cs =>
    match skipWs cs with
    | '"' :: r0 =>
        match parseStrGo [] r0 with
        | some (k, r1) =>
            match skipWs r1 with
            | ':' :: r2 =>
                match parseVal fuel r2 with
                | some (v, r3) => some ((k, v), r3)
                | none => none
            | _ => none
        | none => none
    | _ => none

def parseObjItems : Nat → List Char → Option (Json × List Char)
  | 0, _ => none
  | fuel + 1, cs =>
    match skipWs cs with
    | '\x7d' :: rest => some (.obj [], rest)
    | cs' =>
        match parseMember fuel cs' with
        | some (kv, r) => parseObjRest fuel [kv] r
        | none => none

def parseObjRest : Nat → List (String × Json) → List Char → Option (Json × List Char)
  | 0, _, _ => none
  | fuel + 1, acc, cs =>
    match skipWs cs with
    | '\x7d' :: rest => some (.obj acc.reverse, rest)
    | ',' :: rest =>
        match parseMember fuel rest with
        | some (kv, r) => parseObjRest fuel (kv :: acc) r
        | none => none
    | _ => none

end

/-- `JSON.parse`: parse one value, then require only trailing whitespace. -/
def jsonParse (s : String) : Option Json :=
  match parseVal (s.length + 1) s.data with
  | some (v, rest) =>
      match skipWs rest with
      | [] => some v
      | _ => none
  | none => none

/-! ## The `POST /extract` handler -/

/-- Fixed inline system instruction from `server.js` (sent with every
request — the server keeps no context cache). -/
def MICRO_PROMPT : String :=
  "Return ONLY JSON that matches responseSchema.\nPercents as 55 (not 0.55), round ≤2dp.\nMissing required → 0. allocation_schedule_pct must be exactly 3 items: \x7byear:1\x7d,\x7byear:2\x7d,\x7byear:3\x7d. If unknown use [40,80,95].\nBonuses: pick tier for S$12k/yr if banded; else headline.\nheadline_gross_return_pct: use marketed illustration (if multiple, use higher).\nSource precedence: Contract/Product Summary/PHS > brochure > fund factsheet.\nIgnore COI/riders/switch/surrender/fees."

def missingKeyMsg : String := "Missing GOOGLE_API_KEY (or GEMINI_API_KEY)"

def missingFileMsg : String :=
  "Upload in multipart/form-data under field \x27file\x27 (or legacy \x27pdf\x27)."

def extractTaskMsg : String := "Extract the required fields for the calculator."

def modelNotJsonMsg : String := "Model did not return valid JSON"

/-- The single `ai.models.generateContent` request the handler builds. -/
structure GenRequest where
  model : String
  userParts : List Part
  systemInstruction : String
  responseSchema : Json
deriving Repr

/-- A model backend response; `text` is `result?.text` (absent or `null`
modelled as `none`). -/
structure ModelResponse where
  text : Option String
deriving Repr

/-- Remaining per-request collaborators of the handler: the multipart
middleware outcome (`uploadEitherWrapped`), the resolved upload
(`getUploadedFile`), the builder environment, the `loadSchema` outcome and
the model backend outcome. -/
structure ReqEnv where
  multerError : Option String
  file : Option UploadFile
  build : BuildEnv
  schemaResult : Except String Json
  modelResult : Except String ModelResponse

/-- Response bodies the handler can produce. -/
inductive RespBody where
  | errorOnly (msg : String)
  | errorRaw (msg : String) (raw : String)
  | okData (data : Json)
  | okFalseError (msg : String)
deriving Repr

structure HttpResponse where
  status : Nat
  body : RespBody
deriving Repr

/-- The observable outcome of one `POST /extract` request: the HTTP
response, the builder's filesystem trace, whether `buildPartsFromUpload`
ran, and the model requests issued (`generateContent` calls). -/
structure ExtractOutcome where
  response : HttpResponse
  fsEvents : List FsEvent
  classifierCalled : Bool
  modelRequests : List GenRequest
deriving Repr

/-- `const text = result?.text || "\x7b\x7d"`: an absent, `null` or empty
(falsy) response text is replaced by the two-character string of an empty
JSON object. -/
def responseText (t : Option String) : String :=
  match t with
  | none => "\x7b\x7d"
  | some s => if s == "" then "\x7b\x7d" else s

/-- The `POST /extract` handler (`uploadEitherWrapped` then the async
route body, whose `catch` maps any thrown error to
`500 {ok:false, error:String(e)}`). -/
def handleExtract (cfg : ServerConfig) (env : ReqEnv) : ExtractOutcome :=
  match env.multerError with
  | some e => ⟨⟨400, .errorOnly e⟩, [], false, []⟩
  | none =>
    match cfg.apiKey with
    | none => ⟨⟨400, .errorOnly missingKeyMsg⟩, [], false, []⟩
    | some _ =>
      match env.file with
      | none => ⟨⟨400, .errorOnly missingFileMsg⟩, [], false, []⟩
      | some f =>
        match buildPartsFromUpload cfg env.build f with
        | (.error err, ev) => ⟨⟨500, .okFalseError (buildErrorString err)⟩, ev, true, []⟩
        | (.ok fileParts, ev) =>
          match env.schemaResult with
          | .error e => ⟨⟨500, .okFalseError e⟩, ev, true, []⟩
          | .ok schema =>
            let req : GenRequest :=
              ⟨cfg.model, .text extractTaskMsg :: fileParts, MICRO_PROMPT, schema⟩
            match env.modelResult with
            | .error e => ⟨⟨500, .okFalseError e⟩, ev, true, [req]⟩
            | .ok r =>
              match jsonParse (responseText r.text) with
              | none => ⟨⟨502, .errorRaw modelNotJsonMsg (responseText r.text)⟩, ev, true, [req]⟩
              | some payload => ⟨⟨200, .okData payload⟩, ev, true, [req]⟩

/-! ## Auxiliary executable definitions used by the statements -/

/-- Decimal value of a digit string (left inverse of `decRepr`). -/
def decVal (l : List Char) : Nat := l.foldl (fun acc c => acc * 10 + (c.toNat - 48)) 0

/-- Whether `needle` occurs as a contiguous substring of `hay`. -/
def substrOccurs (needle : List Char) : List Char → Bool
  | [] => needle.isEmpty
  | c :: rest => needle.isPrefixOf (c :: rest) || substrOccurs needle rest

/-! ## Concrete fixtures for witnesses and counterexamples -/

/-- Default configuration: a key is set, `MAX_INLINE_BYTES` is the default
`14 * 1024 * 1024`, the default model. -/
def cfg0 : ServerConfig := ⟨some "test-key", 14680064, "gemini-2.5-flash-lite"⟩

/-- A benign environment: fixed clock, fixed decoder outputs, succeeding
remote upload. -/
def constEnv : BuildEnv :=
  ⟨1700000000000, fun _ => "decoded text", fun _ => "doc text",
   fun _ _ => .ok ⟨"files/abc123", "application/pdf"⟩⟩

/-- Environment whose DOCX extraction yields whitespace only. -/
def wsDocEnv : BuildEnv :=
  ⟨1, fun _ => "", fun _ => " \n ", fun _ _ => .error "upload failed"⟩

/-- Environment whose DOCX extraction yields `hello`. -/
def helloDocEnv : BuildEnv :=
  ⟨1, fun _ => "", fun _ => "hello", fun _ _ => .ok ⟨"u", "m"⟩⟩

def smallPdfFile : UploadFile := ⟨"application/pdf", some 3, [77, 97, 110], some "a.pdf"⟩

def zipFile : UploadFile := ⟨"application/zip", some 100, [0], some "deck.pptx"⟩

def docxFile : UploadFile := ⟨docxMime, some 10, [1], some "b.docx"⟩

def bigDocxFile : UploadFile := ⟨docxMime, some 99999999, [1], some "big.docx"⟩

def bigPdf : UploadFile := ⟨"application/pdf", some 99999999, [0], some "a.pdf"⟩

/-- Same declared type, size, name and timestamp as `bigPdf`, but a
different request (different bytes). -/
def bigPdf2 : UploadFile := ⟨"application/pdf", some 99999999, [1], some "a.pdf"⟩

def zipReq : ReqEnv := ⟨none, some zipFile, constEnv, .ok (.obj []), .ok ⟨some "x"⟩⟩

def noFileReq : ReqEnv := ⟨none, none, constEnv, .ok (.obj []), .ok ⟨some "x"⟩⟩

def emptyTextReq : ReqEnv := ⟨none, some smallPdfFile, constEnv, .ok (.obj []), .ok ⟨some ""⟩⟩

def nonJsonReq : ReqEnv :=
  ⟨none, some smallPdfFile, constEnv, .ok (.obj []), .ok ⟨some "model refused"⟩⟩

def noTextReq : ReqEnv := ⟨none, some smallPdfFile, constEnv, .ok (.obj []), .ok ⟨none⟩⟩

/-! # Theorems

First the helper lemmas shared by several claims, then one theorem per
claim (with its witness or counterexample). -/

/-! ## Decimal rendering: roundtrip, injectivity, digit range -/

lemma decReprAux_zero (fuel : Nat) : decReprAux fuel 0 = [] := by
  cases fuel <;> simp [decReprAux]

lemma digitChar_toNat {d : Nat} (hd : d < 10) : (digitChar d).toNat = 48 + d := by
  interval_cases d <;> rfl

lemma decVal_append_digit (l : List Char) (c : Char) :
    decVal (l ++ [c]) = decVal l * 10 + (c.toNat - 48) := by
  simp [decVal, List.foldl_append]

lemma decReprAux_spec : ∀ fuel n, 0 < n → n ≤ fuel →
    decVal (decReprAux fuel n) = n ∧ decReprAux fuel n ≠ [] ∧
    ∀ c ∈ decReprAux fuel n, 48 ≤ c.toNat ∧ c.toNat ≤ 57 := by
  intro fuel
  induction fuel with
  | zero => intro n hn hle; omega
  | succ f ih =>
    intro n hn hle
    have hn0 : ¬ n = 0 := by omega
    have hmod : n % 10 < 10 := Nat.mod_lt _ (by norm_num)
    rw [decReprAux, if_neg hn0]
    by_cases hq : n / 10 = 0
    · have hlt : n < 10 := by omega
      rw [hq, decReprAux_zero, List.nil_append]
      refine ⟨?_, by simp, ?_⟩
      · simp [decVal, digitChar_toNat hmod]
        omega
      · intro c hc
        simp at hc
        subst hc
        rw [digitChar_toNat hmod]
        omega
    · have hdlt : n / 10 < n := Nat.div_lt_self hn (by norm_num)
      have := ih (n / 10) (by omega) (by omega)
      obtain ⟨hv, hne, hrange⟩ := this
      refine ⟨?_, by simp, ?_⟩
      · rw [decVal_append_digit, hv, digitChar_toNat hmod]
        omega
      · intro c hc
        rcases List.mem_append.mp hc with hc | hc
        · exact hrange c hc
        · simp at hc
          subst hc
          rw [digitChar_toNat hmod]
          omega

lemma decVal_decRepr (n : Nat) : decVal (decRepr n).data = n := by
  by_cases hn : n = 0
  · subst hn; rfl
  · rw [decRepr, if_neg hn]
    exact (decReprAux_spec (n + 1) n (by omega) (by omega)).1

lemma decRepr_inj {n m : Nat} (h : decRepr n = decRepr m) : n = m := by
  have := congrArg (fun s => decVal s.data) h
  simpa [decVal_decRepr] using this

lemma decRepr_no_dash (n : Nat) : ∀ c ∈ (decRepr n).data, c ≠ '-' := by
  by_cases hn : n = 0
  · subst hn; intro c hc; simp [decRepr] at hc; subst hc; decide
  · rw [decRepr, if_neg hn]
    intro c hc hcon
    have := ((decReprAux_spec (n + 1) n (by omega) (by omega)).2.2) c hc
    subst hcon
    exact absurd this (by decide)

lemma append_dash_inj : ∀ (l₁ : List Char) {r₁ l₂ r₂ : List Char},
    (∀ c ∈ l₁, c ≠ '-') → (∀ c ∈ l₂, c ≠ '-') →
    l₁ ++ '-' :: r₁ = l₂ ++ '-' :: r₂ → l₁ = l₂ ∧ r₁ = r₂ := by
  intro l₁
  induction l₁ with
  | nil =>
    intro r₁ l₂ r₂ _ h2 h
    cases l₂ with
    | nil => simpa using h
    | cons c cs =>
      simp at h
      exact absurd h.1.symm (h2 c (by simp))
  | cons c cs ih =>
    intro r₁ l₂ r₂ h1 h2 h
    cases l₂ with
    | nil =>
      simp at h
      exact absurd h.1 (h1 c (by simp))
    | cons d ds =>
      simp at h
      obtain ⟨hcd, htail⟩ := h
      have := ih (fun x hx => h1 x (by simp [hx])) (fun x hx => h2 x (by simp [hx])) htail
      exact ⟨by simp [hcd, this.1], this.2⟩

/-! ## MIME classification helper lemmas -/

lemma texty_cases {mt : String} (h : TEXTY_MIMES.contains mt = true) :
    mt = "text/plain" ∨ mt = "text/csv" ∨ mt = "application/json" := by
  have hm : mt ∈ TEXTY_MIMES := by simpa using h
  fin_cases hm <;> simp

lemma texty_not_docimg {mt : String} (h : TEXTY_MIMES.contains mt = true) :
    (DIRECT_DOC_MIMES.contains mt || IMAGE_MIMES.contains mt) = false := by
  rcases texty_cases h with h' | h' | h' <;> rw [h'] <;> rfl

/-- The large-file branch shared by PDF/image and text-like types: one
write, then upload, then unconditional unlink; on success one remote
reference, on failure the upload error. -/
lemma bigFileFlow_spec (env : BuildEnv) (mt tmp : String) :
    (bigFileFlow env mt tmp).2 = [.write tmp, .unlink tmp]
    ∧ writeCount (bigFileFlow env mt tmp).2 = 1
    ∧ remainingFiles (bigFileFlow env mt tmp).2 = []
    ∧ (∀ up, env.upload tmp mt = .ok up →
        (bigFileFlow env mt tmp).1 = .ok [.fileData up.uri up.mimeType])
    ∧ (∀ e, env.upload tmp mt = .error e →
        (bigFileFlow env mt tmp).1 = .error (.uploadFailed e)) := by
  cases hu : env.upload tmp mt <;>
    simp [bigFileFlow, hu, writeCount, remainingFiles, replayFs]

/-! ## Claim C1 -/

/-- Claim C1, counterexample: a classifier error (unsupported declared
MIME type `application/zip`) makes `POST /extract` answer with status 500,
not with a 4xx status as the claim states for every classifier or input
error. -/
theorem claim_C1_counterexample :
    (handleExtract cfg0 zipReq).response.status = 500
    ∧ ¬(400 ≤ (handleExtract cfg0 zipReq).response.status
        ∧ (handleExtract cfg0 zipReq).response.status < 500) := by
  refine ⟨rfl, ?_⟩
  rw [show (handleExtract cfg0 zipReq).response.status = 500 from rfl]
  omega

/-- Claim C1, amended: the missing-credential and missing-file input
errors answer 400 with an error-message body, while classifier errors
(unsupported MIME type, empty DOCX text) propagate to the generic catch
handler and answer 500 with an ok-false error body. -/
theorem claim_C1_amended (cfg : ServerConfig) (env : ReqEnv)
    (hm : env.multerError = none) :
    (cfg.apiKey = none →
      handleExtract cfg env = ⟨⟨400, .errorOnly missingKeyMsg⟩, [], false, []⟩)
    ∧ (∀ k, cfg.apiKey = some k → env.file = none →
      handleExtract cfg env = ⟨⟨400, .errorOnly missingFileMsg⟩, [], false, []⟩)
    ∧ (∀ k f err ev, cfg.apiKey = some k → env.file = some f →
      buildPartsFromUpload cfg env.build f = (.error err, ev) →
      handleExtract cfg env = ⟨⟨500, .okFalseError (buildErrorString err)⟩, ev, true, []⟩) := by
  refine ⟨?_, ?_, ?_⟩
  · intro hk
    simp [handleExtract, hm, hk]
  · intro k hk hf
    simp [handleExtract, hm, hk, hf]
  · intro k f err ev hk hf hb
    simp [handleExtract, hm, hk, hf, hb]

/-- Witness for C1 (amended), at the unsupported-type input. -/
theorem claim_C1_witness :
    zipReq.multerError = none ∧ cfg0.apiKey = some "test-key"
    ∧ zipReq.file = some zipFile
    ∧ buildPartsFromUpload cfg0 zipReq.build zipFile = (.error (.unsupported unsupportedMsg), [])
    ∧ handleExtract cfg0 zipReq
        = ⟨⟨500, .okFalseError ("Error: " ++ unsupportedMsg)⟩, [], true, []⟩ :=
  ⟨rfl, rfl, rfl, rfl,
    (claim_C1_amended cfg0 zipReq rfl).2.2 "test-key" zipFile _ _ rfl rfl rfl⟩

/-! ## Claim C2 -/

/-- Claim C2 (a code bug): the thrown unsupported-type message is the
literal template text — the `supported` list is never interpolated because
the placeholders are backslash-escaped — so the message names no supported
MIME type, while the un-interpolated placeholder text does occur in it. -/
theorem claim_C2_literal_message :
    buildPartsFromUpload cfg0 constEnv zipFile = (.error (.unsupported unsupportedMsg), [])
    ∧ substrOccurs "application/pdf".data unsupportedMsg.data = false
    ∧ substrOccurs "text/plain".data unsupportedMsg.data = false
    ∧ substrOccurs "image/png".data unsupportedMsg.data = false
    ∧ substrOccurs "$\x7bmt\x7d".data unsupportedMsg.data = true
    ∧ substrOccurs "$\x7bsupported.join(\", \")\x7d".data unsupportedMsg.data = true :=
  ⟨rfl, rfl, rfl, rfl, rfl, rfl⟩

/-! ## Claim C3 -/

/-- Claim C3, counterexample: a DOCX upload is of a supported MIME type
and can exceed the inline threshold, yet the builder writes no temporary
file and returns a text part, not a remote reference. -/
theorem claim_C3_counterexample :
    cfg0.maxInlineBytes < fileSize bigDocxFile
    ∧ buildPartsFromUpload cfg0 helloDocEnv bigDocxFile = (.ok [.text "hello"], []) := by
  exact ⟨by decide, rfl⟩

/-- Claim C3, amended: for the size-branched categories (PDF, image,
text-like — DOCX excluded), an upload above the inline threshold writes
exactly one temporary file, unlinks that same file on both exit paths of
the remote upload, and on upload success returns exactly one remote
reference part. -/
theorem claim_C3_amended (cfg : ServerConfig) (env : BuildEnv) (f : UploadFile)
    (hmt : ((DIRECT_DOC_MIMES.contains f.mimetype || IMAGE_MIMES.contains f.mimetype)
            || TEXTY_MIMES.contains f.mimetype) = true)
    (hsize : cfg.maxInlineBytes < fileSize f) :
    ∃ tmp, (buildPartsFromUpload cfg env f).2 = [.write tmp, .unlink tmp]
      ∧ writeCount (buildPartsFromUpload cfg env f).2 = 1
      ∧ remainingFiles (buildPartsFromUpload cfg env f).2 = []
      ∧ (∀ up, env.upload tmp f.mimetype = .ok up →
          (buildPartsFromUpload cfg env f).1 = .ok [.fileData up.uri up.mimeType])
      ∧ (∀ e, env.upload tmp f.mimetype = .error e →
          (buildPartsFromUpload cfg env f).1 = .error (.uploadFailed e)) := by
  have hns : ¬ fileSize f ≤ cfg.maxInlineBytes := by omega
  by_cases h1 : (DIRECT_DOC_MIMES.contains f.mimetype || IMAGE_MIMES.contains f.mimetype) = true
  · have hb : buildPartsFromUpload cfg env f
        = bigFileFlow env f.mimetype (tmpPath "upload" env.now f.originalname) := by
      unfold buildPartsFromUpload
      rw [if_pos h1, if_neg hns]
    rw [hb]
    exact ⟨_, bigFileFlow_spec env f.mimetype _⟩
  · have h2 : TEXTY_MIMES.contains f.mimetype = true := by
      rcases Bool.or_eq_true_iff.mp hmt with h | h
      · exact absurd h h1
      · exact h
    have hb : buildPartsFromUpload cfg env f
        = bigFileFlow env f.mimetype (tmpPath "upload.txt" env.now f.originalname) := by
      unfold buildPartsFromUpload
      rw [if_neg h1, if_pos h2, if_neg hns]
    rw [hb]
    exact ⟨_, bigFileFlow_spec env f.mimetype _⟩

/-- Witness for C3 (amended), at a large PDF upload. -/
theorem claim_C3_witness :
    ((DIRECT_DOC_MIMES.contains bigPdf.mimetype || IMAGE_MIMES.contains bigPdf.mimetype)
      || TEXTY_MIMES.contains bigPdf.mimetype) = true
    ∧ cfg0.maxInlineBytes < fileSize bigPdf
    ∧ ∃ tmp, (buildPartsFromUpload cfg0 constEnv bigPdf).2 = [.write tmp, .unlink tmp]
      ∧ writeCount (buildPartsFromUpload cfg0 constEnv bigPdf).2 = 1
      ∧ remainingFiles (buildPartsFromUpload cfg0 constEnv bigPdf).2 = []
      ∧ (∀ up, constEnv.upload tmp bigPdf.mimetype = .ok up →
          (buildPartsFromUpload cfg0 constEnv bigPdf).1 = .ok [.fileData up.uri up.mimeType])
      ∧ (∀ e, constEnv.upload tmp bigPdf.mimetype = .error e →
          (buildPartsFromUpload cfg0 constEnv bigPdf).1 = .error (.uploadFailed e)) :=
  ⟨by decide, by decide, claim_C3_amended cfg0 constEnv bigPdf (by decide) (by decide)⟩

/-! ## Claim C4 -/

/-- Claim C4, counterexample: a DOCX upload is of a supported MIME type
and below the inline threshold, yet when its extracted text is
whitespace-only the builder fails with the empty-document error instead
of returning exactly one part. -/
theorem claim_C4_counterexample :
    fileSize docxFile ≤ cfg0.maxInlineBytes
    ∧ buildPartsFromUpload cfg0 wsDocEnv docxFile = (.error .emptyDocx, []) := by
  exact ⟨by decide, rfl⟩

/-- Claim C4, amended: for the size-branched categories (PDF, image,
text-like — DOCX excluded), an upload at or below the inline threshold
returns exactly one part — inline base64 data for PDF/image, a text part
holding the UTF-8 decoding for text-like — with no filesystem event. -/
theorem claim_C4_amended (cfg : ServerConfig) (env : BuildEnv) (f : UploadFile)
    (hsize : fileSize f ≤ cfg.maxInlineBytes) :
    ((DIRECT_DOC_MIMES.contains f.mimetype || IMAGE_MIMES.contains f.mimetype) = true →
      buildPartsFromUpload cfg env f = (.ok [.inlineData f.mimetype (base64Encode f.buffer)], []))
    ∧ (TEXTY_MIMES.contains f.mimetype = true →
      buildPartsFromUpload cfg env f = (.ok [.text (env.utf8Decode f.buffer)], [])) := by
  constructor
  · intro h
    unfold buildPartsFromUpload
    rw [if_pos h, if_pos hsize]
  · intro h
    unfold buildPartsFromUpload
    rw [if_neg (by rw [texty_not_docimg h]; decide), if_pos h, if_pos hsize]

/-- Witness for C4 (amended), at a 3-byte PDF upload. -/
theorem claim_C4_witness :
    fileSize smallPdfFile ≤ cfg0.maxInlineBytes
    ∧ (DIRECT_DOC_MIMES.contains smallPdfFile.mimetype
        || IMAGE_MIMES.contains smallPdfFile.mimetype) = true
    ∧ buildPartsFromUpload cfg0 constEnv smallPdfFile
        = (.ok [.inlineData "application/pdf" "TWFu"], []) :=
  ⟨by decide, by decide, (claim_C4_amended cfg0 constEnv smallPdfFile (by decide)).1 (by decide)⟩

/-! ## Claim C5 -/

/-- Claim C5: for a DOCX upload the builder fails with the empty-document
error exactly when the extracted raw text trims to empty, otherwise it
returns exactly one text part holding the trimmed extracted text; in both
cases it touches no temporary storage. -/
theorem claim_C5_docx (cfg : ServerConfig) (env : BuildEnv) (f : UploadFile)
    (hmt : f.mimetype = docxMime) :
    ((buildPartsFromUpload cfg env f).1 = .error .emptyDocx
      ↔ jsTrim (env.mammothExtract f.buffer) = "")
    ∧ (jsTrim (env.mammothExtract f.buffer) ≠ "" →
        (buildPartsFromUpload cfg env f).1 = .ok [.text (jsTrim (env.mammothExtract f.buffer))])
    ∧ (buildPartsFromUpload cfg env f).2 = [] := by
  unfold buildPartsFromUpload
  rw [hmt]
  rw [if_neg (by decide), if_neg (by decide), if_pos (by decide)]
  by_cases he : jsTrim (env.mammothExtract f.buffer) = ""
  · rw [if_pos (by simp [he])]
    simp [he]
  · rw [if_neg (by simp [he])]
    simp [he]

/-- Witness for C5, at a DOCX upload whose extraction yields `hello`. -/
theorem claim_C5_witness :
    docxFile.mimetype = docxMime
    ∧ (((buildPartsFromUpload cfg0 helloDocEnv docxFile).1 = .error .emptyDocx
        ↔ jsTrim (helloDocEnv.mammothExtract docxFile.buffer) = "")
      ∧ (jsTrim (helloDocEnv.mammothExtract docxFile.buffer) ≠ "" →
          (buildPartsFromUpload cfg0 helloDocEnv docxFile).1
            = .ok [.text (jsTrim (helloDocEnv.mammothExtract docxFile.buffer))])
      ∧ (buildPartsFromUpload cfg0 helloDocEnv docxFile).2 = []) :=
  ⟨rfl, claim_C5_docx cfg0 helloDocEnv docxFile rfl⟩

/-! ## Claim C6 -/

/-- Claim C6, counterexample: the empty model text does not parse as
JSON, yet `POST /extract` answers 200 with an empty-object payload
(because the falsy text is first replaced by an empty JSON object),
not 502 as the claim states for every non-JSON model text. -/
theorem claim_C6_counterexample :
    jsonParse "" = none
    ∧ (handleExtract cfg0 emptyTextReq).response = ⟨200, .okData (.obj [])⟩ :=
  ⟨rfl, rfl⟩

/-- Claim C6, amended: for a present, non-empty model text that does not
parse as JSON, `POST /extract` answers 502 with the fixed error message
and the raw model text. -/
theorem claim_C6_amended (cfg : ServerConfig) (env : ReqEnv) (k : String) (f : UploadFile)
    (fileParts : List Part) (ev : List FsEvent) (schema : Json) (r : ModelResponse) (s : String)
    (hm : env.multerError = none) (hk : cfg.apiKey = some k) (hf : env.file = some f)
    (hb : buildPartsFromUpload cfg env.build f = (.ok fileParts, ev))
    (hs : env.schemaResult = .ok schema)
    (hr : env.modelResult = .ok r) (ht : r.text = some s) (hne : s ≠ "")
    (hj : jsonParse s = none) :
    (handleExtract cfg env).response = ⟨502, .errorRaw modelNotJsonMsg s⟩ := by
  simp [handleExtract, hm, hk, hf, hb, hs, hr, ht, responseText,
    beq_eq_false_iff_ne.mpr hne, hj]

/-- Witness for C6 (amended), at the model text `model refused`. -/
theorem claim_C6_witness :
    nonJsonReq.modelResult = .ok ⟨some "model refused"⟩
    ∧ ("model refused" : String) ≠ ""
    ∧ jsonParse "model refused" = none
    ∧ (handleExtract cfg0 nonJsonReq).response = ⟨502, .errorRaw modelNotJsonMsg "model refused"⟩ :=
  ⟨rfl, by decide, rfl,
    claim_C6_amended cfg0 nonJsonReq "test-key" smallPdfFile
      [.inlineData "application/pdf" "TWFu"] [] (.obj []) ⟨some "model refused"⟩
      "model refused" rfl rfl rfl rfl rfl rfl rfl (by decide) rfl⟩

/-! ## Claim C7 -/

/-- Claim C7: when the middleware succeeded, a credential is configured
and no file was uploaded under either field name, the response is 400
with the missing-file message, the classifier never runs, no filesystem
event happens and no model call is made. -/
theorem claim_C7_no_file (cfg : ServerConfig) (env : ReqEnv) (k : String)
    (hm : env.multerError = none) (hk : cfg.apiKey = some k) (hf : env.file = none) :
    handleExtract cfg env = ⟨⟨400, .errorOnly missingFileMsg⟩, [], false, []⟩ := by
  simp [handleExtract, hm, hk, hf]

/-- Witness for C7, at a request with no file field. -/
theorem claim_C7_witness :
    noFileReq.multerError = none ∧ cfg0.apiKey = some "test-key" ∧ noFileReq.file = none
    ∧ handleExtract cfg0 noFileReq = ⟨⟨400, .errorOnly missingFileMsg⟩, [], false, []⟩ :=
  ⟨rfl, rfl, rfl, claim_C7_no_file cfg0 noFileReq "test-key" rfl rfl rfl⟩

/-! ## Claim C8 -/

/-- Claim C8: the server keeps no instruction cache, so no cache state
can fail a request — on every request that reaches the model step,
exactly one model call is made and its system instruction is the inline
prompt, whatever the model outcome. -/
theorem claim_C8_inline_prompt (cfg : ServerConfig) (env : ReqEnv) (k : String) (f : UploadFile)
    (fileParts : List Part) (ev : List FsEvent) (schema : Json)
    (hm : env.multerError = none) (hk : cfg.apiKey = some k) (hf : env.file = some f)
    (hb : buildPartsFromUpload cfg env.build f = (.ok fileParts, ev))
    (hs : env.schemaResult = .ok schema) :
    (handleExtract cfg env).modelRequests
      = [⟨cfg.model, .text extractTaskMsg :: fileParts, MICRO_PROMPT, schema⟩]
    ∧ ∀ q ∈ (handleExtract cfg env).modelRequests, q.systemInstruction = MICRO_PROMPT := by
  have h1 : (handleExtract cfg env).modelRequests
      = [⟨cfg.model, .text extractTaskMsg :: fileParts, MICRO_PROMPT, schema⟩] := by
    cases hmr : env.modelResult with
    | error e => simp [handleExtract, hm, hk, hf, hb, hs, hmr]
    | ok r =>
      cases hjp : jsonParse (responseText r.text) with
      | none => simp [handleExtract, hm, hk, hf, hb, hs, hmr, hjp]
      | some payload => simp [handleExtract, hm, hk, hf, hb, hs, hmr, hjp]
  refine ⟨h1, ?_⟩
  rw [h1]
  intro q hq
  simp at hq
  rw [hq]

/-- Witness for C8, at a request whose model response has no text. -/
theorem claim_C8_witness :
    noTextReq.multerError = none ∧ cfg0.apiKey = some "test-key"
    ∧ noTextReq.file = some smallPdfFile
    ∧ buildPartsFromUpload cfg0 noTextReq.build smallPdfFile
        = (.ok [.inlineData "application/pdf" "TWFu"], [])
    ∧ noTextReq.schemaResult = .ok (.obj [])
    ∧ ((handleExtract cfg0 noTextReq).modelRequests
        = [⟨cfg0.model, .text extractTaskMsg :: [.inlineData "application/pdf" "TWFu"],
            MICRO_PROMPT, .obj []⟩]
      ∧ ∀ q ∈ (handleExtract cfg0 noTextReq).modelRequests,
          q.systemInstruction = MICRO_PROMPT) :=
  ⟨rfl, rfl, rfl, rfl, rfl,
    claim_C8_inline_prompt cfg0 noTextReq "test-key" smallPdfFile
      [.inlineData "application/pdf" "TWFu"] [] (.obj []) rfl rfl rfl rfl rfl⟩

/-! ## Claim C9 -/

/-- Claim C9, counterexample: two distinct concurrent large-file requests
(same millisecond, same original name, different bytes) receive the same
temporary file path. -/
theorem claim_C9_counterexample :
    bigPdf ≠ bigPdf2
    ∧ (buildPartsFromUpload cfg0 constEnv bigPdf).2
        = [.write "/tmp/1700000000000-a.pdf", .unlink "/tmp/1700000000000-a.pdf"]
    ∧ (buildPartsFromUpload cfg0 constEnv bigPdf2).2
        = [.write "/tmp/1700000000000-a.pdf", .unlink "/tmp/1700000000000-a.pdf"] :=
  ⟨by decide, rfl, rfl⟩

/-- Claim C9, amended: two large-file requests receive distinct temporary
file paths whenever their `Date.now()` values differ or their sanitized
original names differ; uniqueness per request is not guaranteed in the
same millisecond. -/
theorem claim_C9_amended {d₁ d₂ : String} {ts₁ ts₂ : Nat} {o₁ o₂ : Option String}
    (h : ts₁ ≠ ts₂ ∨ jsWsReplace (o₁.getD d₁) ≠ jsWsReplace (o₂.getD d₂)) :
    tmpPath d₁ ts₁ o₁ ≠ tmpPath d₂ ts₂ o₂ := by
  intro heq
  have h1 := congrArg String.data heq
  simp only [tmpPath, String.data_append, List.append_assoc, List.singleton_append] at h1
  have h2 := List.append_cancel_left h1
  have h3 := append_dash_inj _ (decRepr_no_dash ts₁) (decRepr_no_dash ts₂) h2
  rcases h with hts | hnm
  · exact hts (decRepr_inj (String.ext h3.1))
  · exact hnm (String.ext h3.2)

/-- Witness for C9 (amended), at two consecutive milliseconds. -/
theorem claim_C9_witness :
    ((1 : Nat) ≠ 2
      ∨ jsWsReplace ((some "a.pdf").getD "upload") ≠ jsWsReplace ((some "a.pdf").getD "upload"))
    ∧ tmpPath "upload" 1 (some "a.pdf") ≠ tmpPath "upload" 2 (some "a.pdf") :=
  ⟨Or.inl (by decide), claim_C9_amended (Or.inl (by decide))⟩

/-! ## Claim C10 -/

/-- Claim C10: an absent, null or empty model text is replaced by the
empty-object literal, so the request answers 200 with an empty-object
payload instead of a model-output error. -/
theorem claim_C10_empty_text (cfg : ServerConfig) (env : ReqEnv) (k : String) (f : UploadFile)
    (fileParts : List Part) (ev : List FsEvent) (schema : Json) (r : ModelResponse)
    (hm : env.multerError = none) (hk : cfg.apiKey = some k) (hf : env.file = some f)
    (hb : buildPartsFromUpload cfg env.build f = (.ok fileParts, ev))
    (hs : env.schemaResult = .ok schema)
    (hr : env.modelResult = .ok r) (ht : r.text = none ∨ r.text = some "") :
    (handleExtract cfg env).response = ⟨200, .okData (.obj [])⟩ := by
  have hj : jsonParse "\x7b\x7d" = some (.obj []) := rfl
  rcases ht with ht | ht <;>
    simp [handleExtract, hm, hk, hf, hb, hs, hr, ht, responseText, hj]

/-- Witness for C10, at a model response with no text field. -/
theorem claim_C10_witness :
    noTextReq.modelResult = .ok ⟨none⟩
    ∧ ((⟨none⟩ : ModelResponse).text = none ∨ (⟨none⟩ : ModelResponse).text = some "")
    ∧ (handleExtract cfg0 noTextReq).response = ⟨200, .okData (.obj [])⟩ :=
  ⟨rfl, Or.inl rfl,
    claim_C10_empty_text cfg0 noTextReq "test-key" smallPdfFile
      [.inlineData "application/pdf" "TWFu"] [] (.obj []) ⟨none⟩
      rfl rfl rfl rfl rfl rfl (Or.inl rfl)⟩

end IlpExtractor
